import Mathlib

set_option maxRecDepth 400000

/-!
Verification of the ArchVisier document-processing core.

This file is a shallow embedding, in Lean 4, of the parts of the
repository that the specification's testable properties talk about:

* `processing/ocr.py` — the parallel OCR batch driver
  (`extract_text_with_ocr`, `extract_texts_with_ocr_parallel`);
* `gui/processing_worker.py` — the metadata-extraction chain
  (`extract_info_from_text`) and the filename synthesizer
  (`generate_new_filename`);
* `gui/pdf_processor_app.py` — the archiver (`handle_file_copy`);
* `context_analyzer.py` — the contextual memory corrector
  (`find_relevant_corrections`, `find_similar_documents`,
  `apply_contextual_corrections`);
* `ml_helper.py` — the generative-stage validation and merge
  (`extract_smart_metadata`, `validate_metadata`).

External capabilities (the Tesseract engine, poppler, the spaCy NER
model, the SmartExtractor instance, the LLM, the sentence-embedding
model and the float cosine routine, the thread scheduler) are taken as
parameters; everything else is translated from the Python source.
Machine floats of the source are modelled as rationals; Python
character classes (`\x5Cw`, `\x5Cd`) are modelled on their ASCII parts, which
is the range every theorem below exercises.
-/

/-! ### Python string helpers -/

/-- The whitespace set of Python's `str.strip()`. -/
def pyStripChars : List Char := [' ', '\t', '\n', '\r', '\x0b', '\x0c']

/-- Python `str.strip()`: drop leading and trailing whitespace. -/
def pyStrip (s : String) : String :=
  String.mk (((s.data.dropWhile (pyStripChars.contains ·)).reverse.dropWhile
    (pyStripChars.contains ·)).reverse)

/-- Python `str.replace(a, b)` for single characters. -/
def replaceCharStr (s : String) (a b : Char) : String :=
  String.mk (s.data.map (fun c => if c = a then b else c))

/-- Python `str.upper()` (ASCII part; every input the code builds here is ASCII). -/
def pyUpper (s : String) : String :=
  String.mk (s.data.map Char.toUpper)

/-- Python slicing `s[:n]` (by code points). -/
def pyTakeStr (n : Nat) (s : String) : String :=
  String.mk (s.data.take n)

/-! ### Filename synthesizer — `generate_new_filename` (gui/processing_worker.py) -/

/-- The metadata fields consumed by `generate_new_filename`. -/
structure DocInfo where
  sygnatura_sprawy : String
  numer_dokumentu : String
  nadawca_odbiorca : String
  typ_dokumentu : String
  w_sprawie : String
deriving DecidableEq, Repr

/-- Characters removed by the `_clean` helper, the regex `[\x5C\x5C/*?:"<>|]`. -/
def illegalFilenameChars : List Char := ['\\', '/', '*', '?', ':', '"', '<', '>', '|']

/-- `_clean` of `generate_new_filename`: strip filesystem-illegal characters, then
Python-`strip` the result. -/
def cleanFilenameText (text : String) : String :=
  pyStrip (String.mk (text.data.filter (fun c => ¬ illegalFilenameChars.contains c)))

/-- The counter key used by `generate_new_filename`: `doc_type or "LP"`. -/
def counterKey (doc_type : String) : String :=
  if doc_type = "" then "LP" else doc_type

/-- `generate_new_filename(info, doc_type, counters)`.  The Python `counters`
dict is modelled as a total map `String → Nat` (missing key ↦ 0, Python's
`counters.get(key, 0)`); the function returns the new name together with the
mutated counters. -/
def generate_new_filename (info : DocInfo) (doc_type : String)
    (counters : String → Nat) : String × (String → Nat) :=
  let key := counterKey doc_type
  let num := counters key + 1
  let counters' : String → Nat := fun k => if k = key then num else counters k
  let sygnatura := replaceCharStr (cleanFilenameText info.sygnatura_sprawy) ' ' '_'
  let numer := replaceCharStr (cleanFilenameText info.numer_dokumentu) ' ' '-'
  let nadawca :=
    (replaceCharStr (pyUpper (cleanFilenameText info.nadawca_odbiorca)) ' ' '-').take 30
  let typ := replaceCharStr (pyUpper (cleanFilenameText info.typ_dokumentu)) ' ' '-'
  let w_sprawie := (replaceCharStr (cleanFilenameText info.w_sprawie) ' ' '-').take 50
  let name0 := Nat.repr num
  let name1 := if sygnatura ≠ "" then name0 ++ "_" ++ sygnatura else name0
  let hyphen_parts := [numer, nadawca, typ, w_sprawie].filter (fun p => p ≠ "")
  let name2 :=
    if hyphen_parts ≠ [] then name1 ++ "_" ++ String.intercalate "-" hyphen_parts
    else name1
  (if name2 = name0 then "dokument_do_weryfikacji_" ++ Nat.repr num ++ ".pdf"
   else name2 ++ ".pdf", counters')

/-! ### Archiver — `handle_file_copy` (gui/pdf_processor_app.py) -/

/-- `pathlib.Path(filename).name` (POSIX): drop trailing slashes, then keep the
part after the last slash. -/
def pathName (s : String) : String :=
  String.mk (((s.data.reverse.dropWhile (· = '/')).takeWhile (· ≠ '/')).reverse)

/-- Membership in Python's `re.ASCII` class `[\x5Cw.-]`, i.e. `[A-Za-z0-9_.-]`.
Written over character codes: 65–90 `A-Z`, 97–122 `a-z`, 48–57 `0-9`,
95 `_`, 46 `.`, 45 `-`. -/
def isAsciiWordDotDash (c : Char) : Bool :=
  (65 ≤ c.toNat && c.toNat ≤ 90) || (97 ≤ c.toNat && c.toNat ≤ 122) ||
    (48 ≤ c.toNat && c.toNat ≤ 57) || c.toNat = 95 || c.toNat = 46 || c.toNat = 45

/-- The sanitization step of `handle_file_copy`:
`re.sub(r"[^\x5Cw.-]", "_", Path(filename).name, flags=re.ASCII)`. -/
def sanitize_filename (filename : String) : String :=
  String.mk ((pathName filename).data.map (fun c => if isAsciiWordDotDash c then c else '_'))

/-- Codes of the characters of the `DISALLOWED_CHARS` class `[<>:"/\x5C\x5C|?*]`:
60 `<`, 62 `>`, 58 `:`, 34 `"`, 47 `/`, 92 backslash, 124 `|`, 63 `?`, 42 `*`. -/
def disallowedCodes : List Nat := [60, 62, 58, 34, 47, 92, 124, 63, 42]

/-- Membership in `DISALLOWED_CHARS = [<>:"/\x5C\x5C|?*\x00-\x1F]`. -/
def isDisallowedChar (c : Char) : Bool :=
  disallowedCodes.contains c.toNat || c.toNat ≤ 31

/-- `DISALLOWED_CHARS.search(s)` as a Boolean: does any character match? -/
def disallowedSearch (s : String) : Bool :=
  s.data.any isDisallowedChar

/-- `handle_file_copy(src_path, dest_dir, filename)`.  The filesystem copy
(`shutil.copy2`) is external; `copy_ok` says whether it succeeds (its `except`
branch returns `None`).  The returned value is the safe name on success. -/
def handle_file_copy (copy_ok : Bool) (filename : String) : Option String :=
  let safe_name := sanitize_filename filename
  if disallowedSearch safe_name then none
  else if copy_ok then some safe_name else none

/-! ### OCR — `extract_text_with_ocr`, `extract_texts_with_ocr_parallel`
(processing/ocr.py)

A per-file run of the external pipeline (poppler conversion, per-page
preprocessing, Tesseract recognition and the dictionary correction pass,
all external or dependent on external output) is abstracted into the
observable outcomes that `extract_text_with_ocr` branches on. -/

/-- Outcome of one file's conversion/recognition run.
`err` covers both `pytesseract.TesseractError` and any other exception
(both `except` arms build the same shape of result); `ok ts` is a successful
run whose page texts, after the dictionary correction pass, are `ts` —
`ok []` is the empty/corrupt-PDF case (`convert_from_path` returned no
images). -/
inductive OcrRun where
  | err (msg : String) (tb : String)
  | ok (pageTexts : List String)
deriving DecidableEq, Repr

/-- `extract_text_with_ocr` as a function of the engine outcome: the
`(text, status)` pair the Python function returns. -/
def extract_text_with_ocr : OcrRun → String × String
  | .err msg tb => ("BŁĄD TECHNICZNY OCR: " ++ msg, tb)
  | .ok [] => ("BŁĄD: Plik PDF jest pusty lub uszkodzony.", "")
  | .ok (t :: ts) => (String.join ((t :: ts).map (fun p => p ++ "\n")), "Sukces")

/-- One input file of a batch: the page count the `pdfinfo` pre-pass probe
reports (probe failures already count as 0, its `except` branch) and the
file's engine outcome. -/
structure PdfSource where
  pageProbe : Nat
  run : OcrRun
deriving DecidableEq, Repr

/-- `extract_texts_with_ocr_parallel`.  The scheduler is external:
`completionOrder` is the order in which `as_completed` yields the submitted
futures, and `processedCount` is how many completions the loop consumes
before it observes the cancel event and breaks (`completionOrder.length`
or more if it is never cancelled).  `cancelAtStart` is the up-front
`cancel_event.is_set()` check.  Results are recorded into a `None`-filled
list of the batch size, exactly as the Python list `results` is. -/
def extract_texts_with_ocr_parallel (files : List PdfSource) (cancelAtStart : Bool)
    (completionOrder : List Nat) (processedCount : Nat) :
    List (Option (String × String)) × Nat :=
  let totalPages := (files.map PdfSource.pageProbe).sum
  let init : List (Option (String × String)) := List.replicate files.length none
  if cancelAtStart then (init, totalPages)
  else
    ((completionOrder.take processedCount).foldl
      (fun acc i =>
        match files.get? i with
        | some f => acc.set i (some (extract_text_with_ocr f.run))
        | none => acc)
      init,
     totalPages)

/-! ### Contextual memory corrector (context_analyzer.py) -/

/-- One entry of `corrections_memory`: the stored fragment and
`changed_fields`, a map `field ↦ {original, corrected}` modelled as an
association list `(field, original, corrected)`. -/
structure Correction where
  text_fragment : String
  changed_fields : List (String × String × String)
deriving DecidableEq, Repr

/-- `correction['changed_fields'][key]`, as an option. -/
def changedLookup (c : Correction) (key : String) : Option (String × String) :=
  (c.changed_fields.find? (fun e => e.1 == key)).map (fun e => e.2)

/-- The loop body of `find_relevant_corrections`: keep the best (strictly
greater) similarity seen so far and its holder. -/
def bestStep (sim : String → String → ℚ) (text : String)
    (acc : ℚ × Option Correction) (c : Correction) : ℚ × Option Correction :=
  if sim c.text_fragment text > acc.1 then (sim c.text_fragment text, some c) else acc

/-- `find_relevant_corrections(text, metadata_key)`.  The fuzzy similarity
(rapidfuzz Jaro–Winkler, `Levenshtein.ratio`, or the pure-Python ratio —
all float-valued) is the parameter `sim`, with scores as rationals;
`SIMILARITY_THRESHOLD` is 0.7.  The loop starts from `max_similarity = -1`
with no holder and updates on strictly greater scores, so ties keep the
earlier entry. -/
def find_relevant_corrections (sim : String → String → ℚ)
    (corrections : List Correction) (text : String) (metadata_key : String) :
    Option String :=
  if corrections = [] then none
  else
    let relevant := corrections.filter (fun c => (changedLookup c metadata_key).isSome)
    if relevant = [] then none
    else
      let best := relevant.foldl (bestStep sim text) ((-1 : ℚ), none)
      if best.1 ≥ 7/10 then
        match best.2 with
        | some c => (changedLookup c metadata_key).map (fun p => p.2)
        | none => none
      else none

/-- One entry of `document_memory`. -/
structure DocMemEntry where
  text_fragment : String
  metadata : List (String × String)
deriving DecidableEq, Repr

/-- `find_similar_documents(text, top_n)`.  The sentence-embedding model and
the cosine routine (`fast_similarity` or its float fallback) are external:
`embed` maps a text to a vector of the abstract type `α` and `cos` scores two
vectors as a rational.  `sorted(..., key=..., reverse=True)` is Python's
stable sort, modelled by a stable insertion sort on the index list; the
result is capped at `top_n` and filtered by similarity `> 0.2`. -/
def find_similar_documents {α : Type} (embed : String → α) (cos : α → α → ℚ)
    (memory : List DocMemEntry) (text : String) (top_n : Nat) :
    List (DocMemEntry × ℚ) :=
  if memory.length < 2 then []
  else
    let sims := memory.map (fun d => cos (embed (pyTakeStr 2000 text)) (embed d.text_fragment))
    let order := (List.range memory.length).insertionSort
      (fun i j => sims.getD j 0 ≤ sims.getD i 0)
    (order.take top_n).filterMap (fun i =>
      if (1 : ℚ)/5 < sims.getD i 0 then
        (memory.get? i).map (fun d => (d, sims.getD i 0))
      else none)

/-! ### Regex machinery for the inline safety net (gui/processing_worker.py,
step 3 of `extract_info_from_text`)

The concrete patterns of the source are compiled by hand into scanners with
Python `re` leftmost-match / greedy-with-backtracking semantics.  Character
classes `\x5Cd`, `\x5Cw`, `\x5Cs` are modelled on their ASCII parts; `re.IGNORECASE`
is modelled by ASCII case folding (the patterns' literals are ASCII except
for the month names, which appear lowercase). -/

/-- `\x5Cd` (ASCII part). -/
def isReDigit (c : Char) : Bool := c.isDigit

/-- `\x5Cw` (ASCII part), used for `\x5Cb` word boundaries. -/
def isReWord (c : Char) : Bool := c.isAlphanum || c = '_'

/-- `\x5Cs` (ASCII part). -/
def isReSpace (c : Char) : Bool :=
  c = ' ' || c = '\t' || c = '\n' || c = '\r' || c = '\x0b' || c = '\x0c'

/-- ASCII-case-insensitive character comparison (`re.IGNORECASE`). -/
def ciEq (a b : Char) : Bool := a.toLower = b.toLower

/-- Match exactly `k` characters satisfying `p`; return them and the rest. -/
def takeExact (p : Char → Bool) : Nat → List Char → Option (List Char × List Char)
  | 0, l => some ([], l)
  | _ + 1, [] => none
  | k + 1, c :: l =>
    if p c then (takeExact p k l).map (fun a => (c :: a.1, a.2)) else none

/-- Match one character satisfying `p`. -/
def takeOne (p : Char → Bool) : List Char → Option (List Char × List Char)
  | [] => none
  | c :: l => if p c then some ([c], l) else none

/-- Greedy `p+`: the maximal non-empty run of characters satisfying `p`. -/
def takeWhile1 (p : Char → Bool) (l : List Char) : Option (List Char × List Char) :=
  match l.takeWhile p with
  | [] => none
  | r => some (r, l.drop r.length)

/-- Case-insensitive literal match: consume `pat` from the front of `l`. -/
def matchLiteralCI : List Char → List Char → Option (List Char × List Char)
  | [], l => some ([], l)
  | _ :: _, [] => none
  | p :: ps, c :: l =>
    if ciEq c p then (matchLiteralCI ps l).map (fun a => (c :: a.1, a.2)) else none

/-- `re.search` position scan: try the matcher at every position, leftmost
match wins (the matcher also runs at the end-of-string position). -/
def searchAux (m : List Char → Option (List Char)) : List Char → Option (List Char)
  | [] => m []
  | c :: l => (m (c :: l)).orElse (fun _ => searchAux m l)

/-- `re.search` scan that also tracks the previous character, for `\x5Cb`. -/
def searchAuxPrev (m : Option Char → List Char → Option (List Char)) :
    Option Char → List Char → Option (List Char)
  | prev, [] => m prev []
  | prev, c :: l => (m prev (c :: l)).orElse (fun _ => searchAuxPrev m (some c) l)

/-- Separator class `[-./]` of the numeric date pattern. -/
def isDateSep (c : Char) : Bool := c = '.' || c = '/' || c = '-'

/-- One backtracking alternative of `\x5Cd{1,2}[-./]\x5Cd{1,2}[-./]\x5Cd{2,4}` with the
three quantifiers fixed at `a`, `b`, `c`. -/
def tryNumericDate (a b c : Nat) (l : List Char) : Option (List Char) := do
  let d1 ← takeExact isReDigit a l
  let s1 ← takeOne isDateSep d1.2
  let d2 ← takeExact isReDigit b s1.2
  let s2 ← takeOne isDateSep d2.2
  let d3 ← takeExact isReDigit c s2.2
  pure (d1.1 ++ s1.1 ++ d2.1 ++ s2.1 ++ d3.1)

/-- `re.search(r"\x5Cd{1,2}[-./]\x5Cd{1,2}[-./]\x5Cd{2,4}", text)`: alternatives in
greedy backtracking order. -/
def matchNumericDateAt (l : List Char) : Option (List Char) :=
  (tryNumericDate 2 2 4 l).orElse fun _ =>
  (tryNumericDate 2 2 3 l).orElse fun _ =>
  (tryNumericDate 2 2 2 l).orElse fun _ =>
  (tryNumericDate 2 1 4 l).orElse fun _ =>
  (tryNumericDate 2 1 3 l).orElse fun _ =>
  (tryNumericDate 2 1 2 l).orElse fun _ =>
  (tryNumericDate 1 2 4 l).orElse fun _ =>
  (tryNumericDate 1 2 3 l).orElse fun _ =>
  (tryNumericDate 1 2 2 l).orElse fun _ =>
  (tryNumericDate 1 1 4 l).orElse fun _ =>
  (tryNumericDate 1 1 3 l).orElse fun _ =>
  (tryNumericDate 1 1 2 l)

/-- The month-name alternation, in the pattern's order; `wrze[sś]nia`
contributes its two concrete spellings. -/
def monthNames : List (List Char) :=
  ["stycznia", "lutego", "marca", "kwietnia", "maja", "czerwca", "lipca",
   "sierpnia", "wrzesnia", "września", "października", "listopada",
   "grudnia"].map String.data

/-- Try the month alternatives in order. -/
def matchMonthName : List Char → Option (List Char × List Char)
  | l => monthNames.foldr (fun pat acc => (matchLiteralCI pat l).orElse (fun _ => acc)) none

/-- One alternative (`\x5Cd{a}` for the leading quantifier) of
`\x5Cb\x5Cd{1,2}\x5Cs+(month)\x5Cs+\x5Cd{4}\x5Cb`. -/
def tryMonthDate (a : Nat) (l : List Char) : Option (List Char) := do
  let d1 ← takeExact isReDigit a l
  let sp1 ← takeWhile1 isReSpace d1.2
  let mon ← matchMonthName sp1.2
  let sp2 ← takeWhile1 isReSpace mon.2
  let d2 ← takeExact isReDigit 4 sp2.2
  match d2.2 with
  | c :: _ => if isReWord c then none else pure (d1.1 ++ sp1.1 ++ mon.1 ++ sp2.1 ++ d2.1)
  | [] => pure (d1.1 ++ sp1.1 ++ mon.1 ++ sp2.1 ++ d2.1)

/-- The month-name date matcher at one position, with its leading `\x5Cb`. -/
def matchMonthDateAt (prev : Option Char) (l : List Char) : Option (List Char) :=
  if (match prev with | some c => isReWord c | none => false) then none
  else (tryMonthDate 2 l).orElse (fun _ => tryMonthDate 1 l)

/-- Step 3's date search: the numeric pattern first, the month-name pattern
as fallback (`group(0)` of whichever matches first). -/
def findDateSafetyNet (text : String) : Option String :=
  ((searchAux matchNumericDateAt text.data).orElse
    (fun _ => searchAuxPrev matchMonthDateAt none text.data)).map String.mk

/-- `^(?:P1|P2)\x5Cs*:\x5Cs*(.+)$` applied to one (newline-free) line: match one of
the prefix keywords case-insensitively, then optional whitespace, a colon,
optional whitespace, and a non-empty remainder.  When everything after the
colon is whitespace, `\x5Cs*` backtracks one character so that `(.+)` matches
exactly that character. -/
def lineKeywordCapture (kws : List (List Char)) (line : List Char) : Option String :=
  match kws.foldr (fun pat acc => (matchLiteralCI pat line).orElse (fun _ => acc)) none with
  | none => none
  | some kw =>
    let r1 := kw.2.dropWhile isReSpace
    match r1 with
    | ':' :: r2 =>
      let r3 := r2.dropWhile isReSpace
      match r3 with
      | [] => (r2.getLast?).map (fun c => String.mk [c])
      | _ => some (String.mk r3)
    | _ => none

/-- `text.split("\x5Cn")` on the character list (Python keeps empty lines;
splitting the empty string yields one empty line). -/
def splitLines : List Char → List (List Char)
  | [] => [[]]
  | c :: rest =>
    if c = '\n' then [] :: splitLines rest
    else
      match splitLines rest with
      | l :: ls => (c :: l) :: ls
      | [] => [[c]]

/-- `re.findall(r"^(?:Od|Nadawca)\x5Cs*:\x5Cs*(.+)$", text, re.M | re.I)` (and the
`Do|Adresat` variant): apply the line matcher to every line. -/
def findallLineCapture (kws : List (List Char)) (text : String) : List String :=
  (splitLines text.data).filterMap (lineKeywordCapture kws)

/-- Group class `[A-Z0-9./\x5C-]` under `re.IGNORECASE`. -/
def isNumGroupChar (c : Char) : Bool :=
  c.isAlpha || c.isDigit || c = '.' || c = '/' || c = '-'

/-- Class `[:\x5Cs-]`. -/
def isColonSpaceDash (c : Char) : Bool := c = ':' || isReSpace c || c = '-'

/-- `(?:nr|numer)` at one position (the two literals cannot both be viable). -/
def matchNrKeyword (l : List Char) : Option (List Char) :=
  ((matchLiteralCI "nr".data l).orElse (fun _ => matchLiteralCI "numer".data l)).map (·.2)

/-- Optional `(?:\x5Cs+dokumentu)?`, greedy: its with-group alternative first,
under the continuation `k`. -/
def withOptDokumentu (l : List Char) (k : List Char → Option (List Char)) :
    Option (List Char) :=
  (match takeWhile1 isReSpace l with
   | some sp =>
     match matchLiteralCI "dokumentu".data sp.2 with
     | some d => k d.2
     | none => none
   | none => none).orElse (fun _ => k l)

/-- Continuation for `\x5Cs*[:\x5Cs-]+([A-Z0-9./\x5C-]+)`: since `\x5Cs ⊆ [:\x5Cs-]`, the two
pieces together consume the maximal `[:\x5Cs-]` run (which must be non-empty);
the group is the following maximal `[A-Z0-9./\x5C-]` run, and when that run is
empty the engine backtracks one trailing `-` of the separator run into the
group (possible only if at least two separator characters remain). -/
def sepRunThenGroup (l : List Char) : Option (List Char) :=
  let run := l.takeWhile isColonSpaceDash
  if run = [] then none
  else
    let grp := (l.drop run.length).takeWhile isNumGroupChar
    if grp ≠ [] then some grp
    else if 2 ≤ run.length ∧ run.getLast? = some '-' then some ['-']
    else none

/-- Continuation for `\x5Cs+([A-Z0-9./\x5C-]+)` of the second document-number
pattern: a non-empty whitespace run, then a non-empty group run (no
whitespace character can be given back into the group class). -/
def spaceRunThenGroup (l : List Char) : Option (List Char) :=
  match takeWhile1 isReSpace l with
  | none => none
  | some sp =>
    match sp.2.takeWhile isNumGroupChar with
    | [] => none
    | grp => some grp

/-- `re.search(r"(?:nr|numer)(?:\x5Cs+dokumentu)?\x5Cs*[:\x5Cs-]+([A-Z0-9./\x5C-]+)", text, re.I)`,
returning `group(1)`. -/
def findNumerColon (text : String) : Option String :=
  (searchAux (fun l =>
    match matchNrKeyword l with
    | none => none
    | some rest => withOptDokumentu rest sepRunThenGroup) text.data).map String.mk

/-- `re.search(r"(?:nr|numer)(?:\x5Cs+dokumentu)?\x5Cs+([A-Z0-9./\x5C-]+)", text, re.I)`,
returning `group(1)`. -/
def findNumerSpace (text : String) : Option String :=
  (searchAux (fun l =>
    match matchNrKeyword l with
    | none => none
    | some rest => withOptDokumentu rest spaceRunThenGroup) text.data).map String.mk

/-- Step 3's document-number search: colon-separated pattern first, then the
space-separated one; the group is Python-stripped on assignment. -/
def findNumerSafetyNet (text : String) : Option String :=
  ((findNumerColon text).orElse (fun _ => findNumerSpace text)).map pyStrip

/-- Group class `[A-Z0-9./\x5C- ]` (the signature group also admits spaces). -/
def isSygGroupChar (c : Char) : Bool := isNumGroupChar c || c = ' '

/-- `(?:sygn\x5C.?\x5Cs*akt|sygnatura)` at one position, alternatives and the
optional dot in backtracking order. -/
def matchSygKeyword (l : List Char) : Option (List Char) :=
  let afterAkt : List Char → Option (List Char) := fun r =>
    (matchLiteralCI "akt".data (r.dropWhile isReSpace)).map Prod.snd
  (match matchLiteralCI "sygn".data l with
   | none => none
   | some m =>
     (match m.2 with
      | '.' :: r => afterAkt r
      | _ => none).orElse
       (fun _ => afterAkt m.2)).orElse
    (fun _ => (matchLiteralCI "sygnatura".data l).map Prod.snd)

/-- Continuation for `[:\x5Cs-]*([A-Z0-9./\x5C- ]+)`: the separator run may be empty;
if no group character follows it, the engine backtracks to the last separator
character that belongs to the group class (space or `-`), which then forms a
one-character group. -/
def sygRunThenGroup (l : List Char) : Option (List Char) :=
  let run := l.takeWhile isColonSpaceDash
  let grp := (l.drop run.length).takeWhile isSygGroupChar
  if grp ≠ [] then some grp
  else
    match run.reverse.find? isSygGroupChar with
    | some c => some [c]
    | none => none

/-- `re.search(r"(?:sygn\x5C.?\x5Cs*akt|sygnatura)\x5Cs*[:\x5Cs-]*([A-Z0-9./\x5C- ]+)", text, re.I)`,
`group(1)` Python-stripped on assignment. -/
def findSygnaturaSafetyNet (text : String) : Option String :=
  ((searchAux (fun l =>
    match matchSygKeyword l with
    | none => none
    | some rest => sygRunThenGroup rest) text.data).map String.mk).map pyStrip

/-! ### Generative stage — `extract_smart_metadata` (ml_helper.py)

The model's decoded response is external; what the source does with it —
JSON extraction, the `temat` → `w_sprawie` rename, `validate_metadata`, the
contextual-correction pass, and the discard-on-failure paths — is embedded
below over the parse outcome. -/

/-- A JSON value stored in the parsed metadata dict: a string, or anything
else (`isinstance(value, str)` is all the source inspects). -/
inductive PyVal where
  | str (s : String)
  | other
deriving DecidableEq, Repr

/-- A parsed JSON object, as an association list (JSON object keys are
unique). -/
abbrev PyDict := List (String × PyVal)

/-- `d.get(k)` as an option. -/
def dictGet (d : PyDict) (k : String) : Option PyVal :=
  (d.find? (fun e => e.1 == k)).map (fun e => e.2)

/-- `d.pop(k)` (the removal part). -/
def dictPop (d : PyDict) (k : String) : PyDict :=
  d.filter (fun e => e.1 != k)

/-- `d[k] = v`: update in place if present, else append. -/
def dictSet (d : PyDict) (k : String) (v : PyVal) : PyDict :=
  if (d.find? (fun e => e.1 == k)).isSome then
    d.map (fun e => if e.1 == k then (k, v) else e)
  else d ++ [(k, v)]

/-- `if 'temat' in metadata and 'w_sprawie' not in metadata:
metadata['w_sprawie'] = metadata.pop('temat')`. -/
def renameTemat (d : PyDict) : PyDict :=
  if (dictGet d "temat").isSome && !(dictGet d "w_sprawie").isSome then
    match dictGet d "temat" with
    | some v => dictSet (dictPop d "temat") "w_sprawie" v
    | none => d
  else d

/-- Exactly ten characters `DDDD-DD-DD` (digits modelled on ASCII `\x5Cd`). -/
def isExactDateFormat (s : String) : Bool :=
  match s.data with
  | [y1, y2, y3, y4, h1, m1, m2, h2, d1, d2] =>
    y1.isDigit && y2.isDigit && y3.isDigit && y4.isDigit && h1 = '-' &&
      m1.isDigit && m2.isDigit && h2 = '-' && d1.isDigit && d2.isDigit
  | _ => false

/-- `re.match(r"^\x5Cd{4}-\x5Cd{2}-\x5Cd{2}$", s)`: Python's `$` also matches just
before one final newline, so the pattern accepts the exact format possibly
followed by a single trailing `'\n'`. -/
def matchDateRegex (s : String) : Bool :=
  isExactDateFormat s ||
    (s.data.getLast? = some '\n' && isExactDateFormat (String.mk s.data.dropLast))

/-- The five keys `validate_metadata` inspects. -/
def validatedKeys : List String :=
  ["typ_dokumentu", "data", "nadawca_odbiorca", "w_sprawie", "numer_dokumentu"]

/-- `validate_metadata`: each of the five keys must be a string when present
(`metadata.get(key, "")` defaults to the empty string, which is a string),
and a present non-empty `data` must match the date regex. -/
def validate_metadata (d : PyDict) : Bool :=
  validatedKeys.all (fun k =>
    match dictGet d k with
    | none => true
    | some (.str v) => if k == "data" && v != "" then matchDateRegex v else true
    | some .other => false)

/-- `apply_contextual_corrections(extracted_info, text)` of
context_analyzer.py: for every key whose value is falsy or shorter than 3
characters, adopt a truthy suggestion from the correction memory.  The
suggestion source (`find_relevant_corrections` over the analyzer's stored
memory and the fixed query text) is the parameter `corrector`.  Non-string
values are left unchanged here (for such values the source's truthiness/`len`
test can itself raise, which the generative stage's outer handler turns into
a discard). -/
def apply_contextual_corrections (corrector : String → Option String)
    (d : PyDict) : PyDict :=
  d.map (fun e =>
    match e.2 with
    | .str s =>
      if s = "" || s.length < 3 then
        match corrector e.1 with
        | some v => if v ≠ "" then (e.1, PyVal.str v) else e
        | none => e
      else e
    | .other => e)

/-- How the decoded model response parses: `parseFailure` is the
`json.JSONDecodeError` path (or the outer exception handler), `parsedNonDict`
the `isinstance(metadata, dict)` failure, `parsedDict` a parsed JSON
object. -/
inductive LlmResponse where
  | parseFailure
  | parsedNonDict
  | parsedDict (d : PyDict)
deriving DecidableEq, Repr

/-- `extract_smart_metadata(text, filename)` after the model call:
`modelLoaded` is `self.loaded or self.load_model()`; on a parsed dict the
source renames `temat`, validates, stores the document (external I/O, no
effect on the returned value) and applies contextual corrections; every
failure path returns `None`. -/
def extract_smart_metadata (modelLoaded : Bool) (response : LlmResponse)
    (corrector : String → Option String) : Option PyDict :=
  if !modelLoaded then none
  else
    match response with
    | .parseFailure => none
    | .parsedNonDict => none
    | .parsedDict d0 =>
      let d1 := renameTemat d0
      if !validate_metadata d1 then none
      else some (apply_contextual_corrections corrector d1)

/-! ### Metadata-extraction chain — `extract_info_from_text`
(gui/processing_worker.py) -/

/-- The `info` dict: its seven fixed keys, in insertion order
`data, nadawca_odbiorca, w_sprawie, numer_dokumentu, sygnatura_sprawy,
typ_dokumentu, status`. -/
structure InfoRec where
  data : String
  nadawca_odbiorca : String
  w_sprawie : String
  numer_dokumentu : String
  sygnatura_sprawy : String
  typ_dokumentu : String
  status : String
deriving DecidableEq, Repr

/-- The per-label entity lists of the spaCy stage (the model is external;
these are the `entities[label]` lists its output induces). -/
structure NerEntities where
  dataE : List String
  orgE : List String
  tytulE : List String
  nrE : List String
  typE : List String
  sygE : List String
deriving DecidableEq, Repr

/-- `" ".join(...)` over entity texts, each with `.replace("\x5Cn", " ").strip()`
applied as in the source. -/
def joinEnts (l : List String) : String :=
  String.intercalate " " (l.map (fun t => pyStrip (replaceCharStr t '\n' ' ')))

/-- Step 1 (`Krok 1`): initialize the record with the case-signature override
and fill it from the NER entities; with no usable model, record the
diagnostic in `w_sprawie` and degrade `status`. -/
def krok1 (ner : Option NerEntities) (case_signature_override : String) : InfoRec :=
  match ner with
  | some e =>
    { data := joinEnts e.dataE
      nadawca_odbiorca := joinEnts e.orgE
      w_sprawie := joinEnts e.tytulE
      numer_dokumentu := joinEnts e.nrE
      sygnatura_sprawy :=
        if case_signature_override = "" then joinEnts e.sygE else case_signature_override
      typ_dokumentu := joinEnts e.typE
      status := "OK" }
  | none =>
    { data := ""
      nadawca_odbiorca := ""
      w_sprawie := "BŁĄD: Model NER nie jest załadowany."
      numer_dokumentu := ""
      sygnatura_sprawy := case_signature_override
      typ_dokumentu := ""
      status := "BŁĄD" }

/-- The dict returned by `SmartExtractor.extract_info` (an injected,
availability-dependent capability; `DummyExtractor` returns all-empty). -/
structure SmartResults where
  data : String
  nadawca_odbiorca : String
  w_sprawie : String
  numer_dokumentu : String
  typ_dokumentu : String
deriving DecidableEq, Repr

/-- The all-empty `DummyExtractor` result. -/
def dummySmartResults : SmartResults := ⟨"", "", "", "", ""⟩

/-- `if not info[k]: info[k] = v` — fill an empty field unconditionally. -/
def fillIfEmpty (cur v : String) : String :=
  if cur = "" then v else cur

/-- Step 2 (`Krok 2`): fill the five SmartExtractor-covered fields when still
empty.  The source's five `if` statements each read and write only their own
field, so they are rendered as independent per-field fills. -/
def krok2 (sm : SmartResults) (r : InfoRec) : InfoRec :=
  { r with
    data := fillIfEmpty r.data sm.data
    nadawca_odbiorca := fillIfEmpty r.nadawca_odbiorca sm.nadawca_odbiorca
    w_sprawie := fillIfEmpty r.w_sprawie sm.w_sprawie
    numer_dokumentu := fillIfEmpty r.numer_dokumentu sm.numer_dokumentu
    typ_dokumentu := fillIfEmpty r.typ_dokumentu sm.typ_dokumentu }

/-- The sender/recipient part of step 3: both `findall`s, senders first,
each capture Python-stripped, joined with spaces when any matched
(`" ".join(combined)` guarded by `if combined:`). -/
def findSendersRecipients (text : String) : Option String :=
  let senders := findallLineCapture ["od".data, "nadawca".data] text
  let recipients := findallLineCapture ["do".data, "adresat".data] text
  let combined := (senders ++ recipients).map pyStrip
  if combined = [] then none else some (String.intercalate " " combined)

/-- Step 3 (`Krok 3`): the inline regex safety net.  Each search runs only
when its field is still empty; an empty field with no match stays empty
(assigning the guard's absence and assigning `""` coincide).  The four `if`
blocks read and write disjoint fields. -/
def krok3 (text : String) (r : InfoRec) : InfoRec :=
  { r with
    data := if r.data = "" then (findDateSafetyNet text).getD "" else r.data
    nadawca_odbiorca :=
      if r.nadawca_odbiorca = "" then (findSendersRecipients text).getD ""
      else r.nadawca_odbiorca
    numer_dokumentu :=
      if r.numer_dokumentu = "" then (findNumerSafetyNet text).getD ""
      else r.numer_dokumentu
    sygnatura_sprawy :=
      if r.sygnatura_sprawy = "" then (findSygnaturaSafetyNet text).getD ""
      else r.sygnatura_sprawy }

/-- `llm_results.get(k)` coerced to the string the merge would assign; a
non-string value is not merged (see `apply_contextual_corrections` on why
non-string payloads cannot survive to this point for the validated keys). -/
def llmFieldVal (d : PyDict) (k : String) : String :=
  match dictGet d k with
  | some (.str s) => s
  | _ => ""

/-- `if not info[k] and llm_results.get(k): info[k] = llm_results[k]`. -/
def fillIfEmptyTruthy (cur v : String) : String :=
  if cur = "" ∧ v ≠ "" then v else cur

/-- Step 4 (`Krok 4`): the optional LLM merge.  `none` is a disabled
assistant (`llm_processor` is `None`); `some (.error ())` a call that raised
(caught and logged, record untouched); `some (.ok none)` a falsy result;
`some (.ok (some d))` a returned dict, merged under the five empty-field
guards (which read and write disjoint fields; `w_sprawie` merges from the
dict's `temat` key). -/
def krok4 (llm : Option (Except Unit (Option PyDict))) (r : InfoRec) : InfoRec :=
  match llm with
  | none => r
  | some (.error _) => r
  | some (.ok none) => r
  | some (.ok (some d)) =>
    { r with
      typ_dokumentu := fillIfEmptyTruthy r.typ_dokumentu (llmFieldVal d "typ_dokumentu")
      data := fillIfEmptyTruthy r.data (llmFieldVal d "data")
      w_sprawie := fillIfEmptyTruthy r.w_sprawie (llmFieldVal d "temat")
      nadawca_odbiorca :=
        fillIfEmptyTruthy r.nadawca_odbiorca (llmFieldVal d "nadawca_odbiorca")
      numer_dokumentu :=
        fillIfEmptyTruthy r.numer_dokumentu (llmFieldVal d "numer_dokumentu") }

/-- The names, in the dict's iteration order, of the non-`status` fields that
are still empty — the keys of `colors`. -/
def emptyFieldNames (r : InfoRec) : List String :=
  (([("data", r.data), ("nadawca_odbiorca", r.nadawca_odbiorca),
     ("w_sprawie", r.w_sprawie), ("numer_dokumentu", r.numer_dokumentu),
     ("sygnatura_sprawy", r.sygnatura_sprawy),
     ("typ_dokumentu", r.typ_dokumentu)] :
      List (String × String)).filter (fun e => e.2 = "")).map (fun e => e.1)

/-- Finalization: build `colors` from the empty fields and set `status` to
`"DO UZUPEŁNIENIA"` when any exist. -/
def krok5 (r : InfoRec) : InfoRec × List String :=
  let colors := emptyFieldNames r
  (if colors ≠ [] then { r with status := "DO UZUPEŁNIENIA" } else r, colors)

/-- `extract_info_from_text(text, original_filename, mode,
case_signature_override, llm_processor)`.  `original_filename` and `mode` do
not influence the result (the filename is only forwarded to the LLM call);
the NER model, the SmartExtractor result for this text and the LLM call
outcome are the external parameters. -/
def extract_info_from_text (text : String) (ner : Option NerEntities)
    (smartResults : SmartResults) (llm : Option (Except Unit (Option PyDict)))
    (case_signature_override : String) : InfoRec × List String :=
  krok5 (krok4 llm (krok3 text (krok2 smartResults (krok1 ner case_signature_override))))

/-- The per-field frame property of a chain step: a non-empty field is left
unchanged ("first-non-empty-wins"). -/
def preservesNonempty (step : InfoRec → InfoRec) : Prop :=
  ∀ r : InfoRec,
    (r.data ≠ "" → (step r).data = r.data) ∧
    (r.nadawca_odbiorca ≠ "" → (step r).nadawca_odbiorca = r.nadawca_odbiorca) ∧
    (r.w_sprawie ≠ "" → (step r).w_sprawie = r.w_sprawie) ∧
    (r.numer_dokumentu ≠ "" → (step r).numer_dokumentu = r.numer_dokumentu) ∧
    (r.sygnatura_sprawy ≠ "" → (step r).sygnatura_sprawy = r.sygnatura_sprawy) ∧
    (r.typ_dokumentu ≠ "" → (step r).typ_dokumentu = r.typ_dokumentu)

/-! ### Spec-side definitions used by the theorems -/

/-- `c` is the first highest-scoring element of `l` (ties resolved to the
earliest): everything before it scores strictly less, everything after it
scores no more. -/
def isFirstMaxBy {γ : Type} (score : γ → ℚ) (l : List γ) (c : γ) : Prop :=
  ∃ l₁ l₂, l = l₁ ++ c :: l₂ ∧ (∀ a ∈ l₁, score a < score c) ∧
    (∀ a ∈ l₂, score a ≤ score c)

/-- The element the `find_relevant_corrections` loop holds after starting at
`c` and scanning `l`: the first strict improvement is adopted, so this is the
first maximum of `c :: l`. -/
def firstMax1 {γ : Type} (score : γ → ℚ) (c : γ) : List γ → γ
  | [] => c
  | d :: l =>
    let m := firstMax1 score d l
    if score m > score c then m else c

/-! ### Helper lemmas -/

/-- A character kept or produced by the sanitizer never matches
`DISALLOWED_CHARS`. -/
theorem sanitized_char_not_disallowed (c : Char) :
    isDisallowedChar (if isAsciiWordDotDash c then c else '_') = false := by
  cases h : isAsciiWordDotDash c with
  | false =>
    simp only [h, Bool.false_eq_true, if_false]
    decide
  | true =>
    simp only [h, if_true]
    have h' := h
    simp only [isAsciiWordDotDash, Bool.or_eq_true, Bool.and_eq_true,
      decide_eq_true_eq] at h'
    simp only [isDisallowedChar, disallowedCodes, List.contains, Bool.or_eq_false_iff,
      List.elem_eq_mem, decide_eq_false_iff_not, List.mem_cons, List.not_mem_nil,
      not_or, not_le, not_false_iff, and_true]
    omega

/-- After sanitization, `DISALLOWED_CHARS.search` finds nothing. -/
theorem disallowedSearch_sanitize (filename : String) :
    disallowedSearch (sanitize_filename filename) = false := by
  simp only [disallowedSearch, sanitize_filename, List.any_eq_false]
  intro x hx
  rcases List.mem_map.1 hx with ⟨c, _, rfl⟩
  simpa using sanitized_char_not_disallowed c

/-! ### C4 — `handle_file_copy` sanitization -/

/-- C4: `handle_file_copy` replaces every character outside `[A-Za-z0-9._-]`
with `_` and returns the sanitized name on a successful copy:
`"bad\x5Cnname.txt"` (with a newline) becomes `"bad_name.txt"`, the all-non-ASCII
`"żółć.txt"` becomes `"____.txt"`, and in general a successful copy returns
exactly the sanitized name. -/
theorem handle_file_copy_sanitizes :
    handle_file_copy true "bad\nname.txt" = some "bad_name.txt"
    ∧ handle_file_copy true "żółć.txt" = some "____.txt"
    ∧ ∀ filename : String, handle_file_copy true filename = some (sanitize_filename filename) := by
  refine ⟨by decide, by decide, fun filename => ?_⟩
  simp only [handle_file_copy, disallowedSearch_sanitize, Bool.false_eq_true,
    if_false, if_true]

/-! ### C10 — the post-sanitization disallowed-character check is unreachable -/

/-- C10: after sanitization no character of the name matches
`DISALLOWED_CHARS`, so the skip branch of `handle_file_copy` never fires and
the function returns `None` exactly when the filesystem copy fails. -/
theorem handle_file_copy_skip_unreachable :
    (∀ filename : String, disallowedSearch (sanitize_filename filename) = false)
    ∧ ∀ (copy_ok : Bool) (filename : String),
        (handle_file_copy copy_ok filename = none ↔ copy_ok = false) := by
  refine ⟨disallowedSearch_sanitize, fun copy_ok filename => ?_⟩
  simp only [handle_file_copy, disallowedSearch_sanitize, Bool.false_eq_true, if_false]
  cases copy_ok <;> simp

/-- Concrete instantiation of `handle_file_copy_skip_unreachable`: a failing
copy (and only a failing copy) yields `None`. -/
theorem handle_file_copy_skip_unreachable_witness :
    handle_file_copy false "raport.pdf" = none
    ∧ disallowedSearch (sanitize_filename "rap<ort>.pdf") = false :=
  ⟨(handle_file_copy_skip_unreachable.2 false "raport.pdf").mpr rfl,
   handle_file_copy_skip_unreachable.1 "rap<ort>.pdf"⟩

/-! ### C3 — filename synthesis and counter increments -/

/-- C3: with the example metadata, mode `"KP"` and fresh counters the first
synthesized name is `"1_Sygnatura_123-MINISTERSTWO-UMOWA-w-sprawie.pdf"`, a
second identical call yields the same name with leading `"2_"`, and every
call bumps the counter stored under the mode key by exactly one (leaving
other keys untouched). -/
theorem generate_new_filename_scheme_and_counter :
    (generate_new_filename ⟨"Sygnatura", "123", "Ministerstwo", "Umowa", "w sprawie"⟩
        "KP" (fun _ => 0)).1 = "1_Sygnatura_123-MINISTERSTWO-UMOWA-w-sprawie.pdf"
    ∧ (generate_new_filename ⟨"Sygnatura", "123", "Ministerstwo", "Umowa", "w sprawie"⟩
        "KP" ((generate_new_filename ⟨"Sygnatura", "123", "Ministerstwo", "Umowa", "w sprawie"⟩
          "KP" (fun _ => 0)).2)).1 = "2_Sygnatura_123-MINISTERSTWO-UMOWA-w-sprawie.pdf"
    ∧ (∀ (info : DocInfo) (doc_type : String) (counters : String → Nat),
        (generate_new_filename info doc_type counters).2 (counterKey doc_type)
          = counters (counterKey doc_type) + 1)
    ∧ ∀ (info : DocInfo) (doc_type : String) (counters : String → Nat) (k : String),
        k ≠ counterKey doc_type →
        (generate_new_filename info doc_type counters).2 k = counters k := by
  refine ⟨by decide, by decide, fun info doc_type counters => ?_, ?_⟩
  · simp [generate_new_filename]
  · intro info doc_type counters k hk
    simp [generate_new_filename, hk]

/-- Concrete instantiation of the untouched-key clause of
`generate_new_filename_scheme_and_counter`. -/
theorem generate_new_filename_scheme_and_counter_witness :
    (generate_new_filename ⟨"", "", "", "", ""⟩ "KP" (fun _ => 5)).2 "WP" = 5
    ∧ (generate_new_filename ⟨"", "", "", "", ""⟩ "KP" (fun _ => 5)).2 "KP" = 6 :=
  ⟨generate_new_filename_scheme_and_counter.2.2.2 ⟨"", "", "", "", ""⟩ "KP" (fun _ => 5)
      "WP" (by decide),
   generate_new_filename_scheme_and_counter.2.2.1 ⟨"", "", "", "", ""⟩ "KP" (fun _ => 5)⟩

/-! ### C1 — batch length invariant and cancellation -/

/-- Recording completed futures never changes the length of the result
list. -/
theorem foldl_record_length (files : List PdfSource) :
    ∀ (evts : List Nat) (acc : List (Option (String × String))),
      (evts.foldl
        (fun acc i =>
          match files.get? i with
          | some f => acc.set i (some (extract_text_with_ocr f.run))
          | none => acc)
        acc).length = acc.length := by
  intro evts
  induction evts with
  | nil => intro acc; rfl
  | cons i evts ih =>
    intro acc
    simp only [List.foldl_cons]
    rw [ih]
    cases files.get? i <;> simp

/-- C1: for every batch, scheduler behaviour and cancellation point, the
result list of `extract_texts_with_ocr_parallel` has exactly one slot per
input path; and if the cancel event is set before any task starts, the
result is all-`None` of the correct length with `totalPages` still the sum
of the page-count pre-pass. -/
theorem ocr_parallel_length_and_cancel (files : List PdfSource)
    (cancelAtStart : Bool) (completionOrder : List Nat) (processedCount : Nat) :
    ((extract_texts_with_ocr_parallel files cancelAtStart completionOrder
        processedCount).1.length = files.length)
    ∧ (cancelAtStart = true →
        extract_texts_with_ocr_parallel files cancelAtStart completionOrder
            processedCount
          = (List.replicate files.length none,
             (files.map PdfSource.pageProbe).sum)) := by
  constructor
  · unfold extract_texts_with_ocr_parallel
    cases cancelAtStart
    · simp only [Bool.false_eq_true, if_false]
      rw [foldl_record_length]
      exact List.length_replicate _ _
    · simp
  · intro h
    subst h
    rfl

/-- Concrete instantiation of `ocr_parallel_length_and_cancel`: a two-file
batch cancelled up front yields `[none, none]` and the pre-passed page
total 5. -/
theorem ocr_parallel_length_and_cancel_witness :
    extract_texts_with_ocr_parallel
        [⟨3, OcrRun.ok ["a"]⟩, ⟨2, OcrRun.ok []⟩] true [0, 1] 2
      = ([none, none], 5) := by
  have h := (ocr_parallel_length_and_cancel
    [⟨3, OcrRun.ok ["a"]⟩, ⟨2, OcrRun.ok []⟩] true [0, 1] 2).2 rfl
  rw [h]
  rfl

/-! ### C7 — empty/corrupt PDF handling -/

/-- Writing `g i` into slot `i` for every `i < n`, in index order, over an
all-`b` list of length `n` (with any suffix) produces the map of `g`. -/
theorem foldl_set_range_map {β : Type} (g : Nat → β) (b : β) :
    ∀ (n : Nat) (tail : List β),
      ((List.range n).foldl (fun acc i => acc.set i (g i))
          (List.replicate n b ++ tail))
        = (List.range n).map g ++ tail := by
  intro n
  induction n with
  | zero => intro tail; rfl
  | succ n ih =>
    intro tail
    rw [List.range_succ, List.replicate_succ' n b, List.append_assoc,
      List.foldl_append, ih ([b] ++ tail), List.foldl_cons, List.foldl_nil,
      List.set_append_right _ _ (by simp),
      List.map_append]
    simp

/-- With no cancellation and every future consumed, each slot of the batch
result holds its own file's `extract_text_with_ocr` outcome. -/
theorem ocr_parallel_full_run (files : List PdfSource) :
    (extract_texts_with_ocr_parallel files false (List.range files.length)
        files.length).1
      = files.map (fun f => some (extract_text_with_ocr f.run)) := by
  unfold extract_texts_with_ocr_parallel
  simp only [Bool.false_eq_true, if_false]
  rw [List.take_of_length_le (by simp)]
  have hfold :
      ((List.range files.length).foldl
        (fun acc i =>
          match files.get? i with
          | some f => acc.set i (some (extract_text_with_ocr f.run))
          | none => acc)
        (List.replicate files.length none))
      = ((List.range files.length).foldl
        (fun acc i =>
          acc.set i (((files.get? i).map
            (fun f => some (extract_text_with_ocr f.run))).getD none))
        (List.replicate files.length none)) := by
    apply List.foldl_ext
    intro acc i hi
    rcases List.mem_range.1 hi with hlt
    rcases List.get?_eq_get (l := files) hlt with h
    rw [h]
    rfl
  rw [hfold]
  have := foldl_set_range_map
    (fun i => ((files.get? i).map (fun f => some (extract_text_with_ocr f.run))).getD none)
    (none : Option (String × String)) files.length []
  simp only [List.append_nil] at this
  rw [this]
  apply List.ext_get?
  intro i
  rw [List.get?_map, List.get?_map]
  by_cases hi : i < files.length
  · rw [List.get?_range hi]
    simp [List.getElem?_eq_getElem hi]
  · rw [List.get?_eq_none.2 (by simpa using hi),
      List.get?_eq_none.2 (by simpa using hi)]
    rfl

/-- C7 counterexample: for a source PDF whose conversion yields no page
images, the result of `extract_text_with_ocr` does NOT have an empty text
with a diagnostic status — it is exactly the opposite: the diagnostic string
sits in the text component and the status component is empty. -/
theorem extract_text_empty_pdf_counterexample :
    ¬ ((extract_text_with_ocr (OcrRun.ok [])).1 = ""
        ∧ (extract_text_with_ocr (OcrRun.ok [])).2 ≠ "") := by
  decide

/-- C7 (amended): an empty/corrupt source PDF yields the distinct diagnostic
result `("BŁĄD: Plik PDF jest pusty lub uszkodzony.", "")` — the diagnostic
in the *text* component (distinct from every success text's
`"Sukces"`-status shape) and an empty *status* — and the batch is not
aborted: in a full, uncancelled run every other file still receives its own
`extract_text_with_ocr` result. -/
theorem extract_text_empty_pdf_diagnostic :
    extract_text_with_ocr (OcrRun.ok [])
        = ("BŁĄD: Plik PDF jest pusty lub uszkodzony.", "")
    ∧ (extract_text_with_ocr (OcrRun.ok [])).2 ≠ "Sukces"
    ∧ (∀ (ts : List String), ts ≠ [] → (extract_text_with_ocr (OcrRun.ok ts)).2 = "Sukces")
    ∧ ∀ files : List PdfSource,
        (extract_texts_with_ocr_parallel files false (List.range files.length)
            files.length).1
          = files.map (fun f => some (extract_text_with_ocr f.run)) := by
  refine ⟨rfl, by decide, ?_, ocr_parallel_full_run⟩
  intro ts hts
  cases ts with
  | nil => exact absurd rfl hts
  | cons t ts => rfl

/-- Concrete instantiation of `extract_text_empty_pdf_diagnostic`: in a
three-file batch whose middle file is empty, files 1 and 3 are still
processed normally. -/
theorem extract_text_empty_pdf_diagnostic_witness :
    (extract_texts_with_ocr_parallel
        [⟨1, OcrRun.ok ["a"]⟩, ⟨0, OcrRun.ok []⟩, ⟨1, OcrRun.ok ["c"]⟩]
        false (List.range 3) 3).1
      = [some ("a\n", "Sukces"),
         some ("BŁĄD: Plik PDF jest pusty lub uszkodzony.", ""),
         some ("c\n", "Sukces")]
    ∧ (extract_text_with_ocr (OcrRun.ok ["a"])).2 = "Sukces" := by
  constructor
  · have h := extract_text_empty_pdf_diagnostic.2.2.2
      [⟨1, OcrRun.ok ["a"]⟩, ⟨0, OcrRun.ok []⟩, ⟨1, OcrRun.ok ["c"]⟩]
    rw [show ([⟨1, OcrRun.ok ["a"]⟩, ⟨0, OcrRun.ok []⟩,
        (⟨1, OcrRun.ok ["c"]⟩ : PdfSource)] : List PdfSource).length = 3 from rfl] at h
    rw [h]
    rfl
  · exact extract_text_empty_pdf_diagnostic.2.2.1 ["a"] (by decide)

/-! ### C2 — first-non-empty-wins across the chain -/

/-- Step 2 never overwrites a non-empty field. -/
theorem krok2_preserves (sm : SmartResults) : preservesNonempty (krok2 sm) := by
  intro r
  refine ⟨?_, ?_, ?_, ?_, ?_, ?_⟩ <;> intro h <;> simp [krok2, fillIfEmpty, h]

/-- Step 3 never overwrites a non-empty field. -/
theorem krok3_preserves (text : String) : preservesNonempty (krok3 text) := by
  intro r
  refine ⟨?_, ?_, ?_, ?_, ?_, ?_⟩ <;> intro h <;> simp [krok3, h]

/-- Step 4 never overwrites a non-empty field, whatever the LLM returned. -/
theorem krok4_preserves (llm : Option (Except Unit (Option PyDict))) :
    preservesNonempty (krok4 llm) := by
  intro r
  match llm with
  | none => exact ⟨fun _ => rfl, fun _ => rfl, fun _ => rfl, fun _ => rfl,
      fun _ => rfl, fun _ => rfl⟩
  | some (.error _) => exact ⟨fun _ => rfl, fun _ => rfl, fun _ => rfl, fun _ => rfl,
      fun _ => rfl, fun _ => rfl⟩
  | some (.ok none) => exact ⟨fun _ => rfl, fun _ => rfl, fun _ => rfl, fun _ => rfl,
      fun _ => rfl, fun _ => rfl⟩
  | some (.ok (some d)) =>
    refine ⟨?_, ?_, ?_, ?_, ?_, ?_⟩ <;> intro h <;>
      simp [krok4, fillIfEmptyTruthy, h]

/-- Finalization changes only `status`. -/
theorem krok5_fields (r : InfoRec) :
    ((krok5 r).1.data = r.data) ∧
    ((krok5 r).1.nadawca_odbiorca = r.nadawca_odbiorca) ∧
    ((krok5 r).1.w_sprawie = r.w_sprawie) ∧
    ((krok5 r).1.numer_dokumentu = r.numer_dokumentu) ∧
    ((krok5 r).1.sygnatura_sprawy = r.sygnatura_sprawy) ∧
    ((krok5 r).1.typ_dokumentu = r.typ_dokumentu) := by
  by_cases h : emptyFieldNames r = [] <;>
    simp [krok5, h]

/-- C2: first-non-empty-wins.  Each later stage of the chain (SmartExtractor
fill, inline regex safety net, LLM merge) preserves every non-empty field of
the record it receives, and consequently, whenever stage 1 (the statistical
extractor plus the signature override) produces a non-empty `data`, the
record returned by `extract_info_from_text` carries exactly that value.
(The contextual corrector runs only inside `extract_smart_metadata`, on the
LLM's own dict, and reaches the record solely through the guarded merge of
step 4, which is covered by the `krok4` clause.) -/
theorem extract_info_first_nonempty_wins :
    (∀ sm, preservesNonempty (krok2 sm))
    ∧ (∀ text, preservesNonempty (krok3 text))
    ∧ (∀ llm, preservesNonempty (krok4 llm))
    ∧ ∀ (text : String) (ner : Option NerEntities) (sm : SmartResults)
        (llm : Option (Except Unit (Option PyDict))) (ov : String),
        (krok1 ner ov).data ≠ "" →
        (extract_info_from_text text ner sm llm ov).1.data = (krok1 ner ov).data := by
  refine ⟨krok2_preserves, krok3_preserves, krok4_preserves, ?_⟩
  intro text ner sm llm ov h1
  unfold extract_info_from_text
  have h2 := ((krok2_preserves sm) (krok1 ner ov)).1 h1
  have h2' : (krok2 sm (krok1 ner ov)).data ≠ "" := by rw [h2]; exact h1
  have h3 := ((krok3_preserves text) (krok2 sm (krok1 ner ov))).1 h2'
  have h3' : (krok3 text (krok2 sm (krok1 ner ov))).data ≠ "" := by rw [h3]; exact h2'
  have h4 := ((krok4_preserves llm) (krok3 text (krok2 sm (krok1 ner ov)))).1 h3'
  have h5 := (krok5_fields (krok4 llm (krok3 text (krok2 sm (krok1 ner ov))))).1
  rw [h5, h4, h3, h2]

/-- Concrete instantiation of `extract_info_first_nonempty_wins`: a NER date
`"2024-01-02"` survives a chain whose later stages all offer competing
values. -/
theorem extract_info_first_nonempty_wins_witness :
    (extract_info_from_text "dnia 05.06.2007" (some ⟨["2024-01-02"], [], [], [], [], []⟩)
        ⟨"1999-09-09", "", "", "", ""⟩
        (some (.ok (some [("data", PyVal.str "1888-08-08")]))) "").1.data
      = "2024-01-02" := by
  have h := extract_info_first_nonempty_wins.2.2.2 "dnia 05.06.2007"
    (some ⟨["2024-01-02"], [], [], [], [], []⟩) ⟨"1999-09-09", "", "", "", ""⟩
    (some (.ok (some [("data", PyVal.str "1888-08-08")]))) "" (by decide)
  rw [h]
  decide

/-! ### C5 — `status` versus `colors` -/

/-- Steps 2–4 never touch `status`. -/
theorem chain_status_invariant (sm : SmartResults) (text : String)
    (llm : Option (Except Unit (Option PyDict))) (r : InfoRec) :
    (krok2 sm r).status = r.status ∧ (krok3 text r).status = r.status ∧
      (krok4 llm r).status = r.status := by
  refine ⟨rfl, rfl, ?_⟩
  match llm with
  | none => rfl
  | some (.error _) => rfl
  | some (.ok none) => rfl
  | some (.ok (some d)) => rfl

/-- C5 counterexample: with the NER model unavailable and every field filled
by the later stages, `extract_info_from_text` finishes with an empty `colors`
map but status `"BŁĄD"`, so "status is OK iff colors is empty" fails. -/
theorem extract_info_status_counterexample :
    ((extract_info_from_text "" none dummySmartResults
        (some (.ok (some [("data", PyVal.str "2024-01-02"),
          ("nadawca_odbiorca", PyVal.str "Firma"),
          ("numer_dokumentu", PyVal.str "7"),
          ("typ_dokumentu", PyVal.str "UMOWA")]))) "X").2 = []
      ∧ (extract_info_from_text "" none dummySmartResults
        (some (.ok (some [("data", PyVal.str "2024-01-02"),
          ("nadawca_odbiorca", PyVal.str "Firma"),
          ("numer_dokumentu", PyVal.str "7"),
          ("typ_dokumentu", PyVal.str "UMOWA")]))) "X").1.status = "BŁĄD")
    ∧ ¬ ((extract_info_from_text "" none dummySmartResults
        (some (.ok (some [("data", PyVal.str "2024-01-02"),
          ("nadawca_odbiorca", PyVal.str "Firma"),
          ("numer_dokumentu", PyVal.str "7"),
          ("typ_dokumentu", PyVal.str "UMOWA")]))) "X").1.status = "OK"
      ↔ (extract_info_from_text "" none dummySmartResults
        (some (.ok (some [("data", PyVal.str "2024-01-02"),
          ("nadawca_odbiorca", PyVal.str "Firma"),
          ("numer_dokumentu", PyVal.str "7"),
          ("typ_dokumentu", PyVal.str "UMOWA")]))) "X").2 = []) := by
  decide

/-- C5 (amended): `colors` is exactly the list of non-status fields still
empty after the chain; `status` is `"OK"` iff `colors` is empty AND the NER
model was available (with the model missing and `colors` empty the status
stays the stage-1 diagnostic `"BŁĄD"`); a non-empty `colors` always forces
`"DO UZUPEŁNIENIA"`. -/
theorem extract_info_status_colors (text : String) (ner : Option NerEntities)
    (sm : SmartResults) (llm : Option (Except Unit (Option PyDict))) (ov : String) :
    ((extract_info_from_text text ner sm llm ov).2
        = emptyFieldNames (extract_info_from_text text ner sm llm ov).1)
    ∧ ((extract_info_from_text text ner sm llm ov).1.status = "OK"
        ↔ ((extract_info_from_text text ner sm llm ov).2 = [] ∧ ner.isSome = true))
    ∧ ((extract_info_from_text text ner sm llm ov).2 ≠ [] →
        (extract_info_from_text text ner sm llm ov).1.status = "DO UZUPEŁNIENIA") := by
  have hst : (krok4 llm (krok3 text (krok2 sm (krok1 ner ov)))).status
      = (krok1 ner ov).status := by
    rw [(chain_status_invariant sm text llm _).2.2,
      (chain_status_invariant sm text llm _).2.1,
      (chain_status_invariant sm text llm _).1]
  set r4 := krok4 llm (krok3 text (krok2 sm (krok1 ner ov))) with hr4
  have key : extract_info_from_text text ner sm llm ov
      = (if emptyFieldNames r4 ≠ [] then { r4 with status := "DO UZUPEŁNIENIA" }
         else r4, emptyFieldNames r4) := rfl
  rw [key]
  by_cases hc : emptyFieldNames r4 = []
  · rw [if_neg (by simp [hc])]
    refine ⟨rfl, ?_, fun h => absurd hc h⟩
    show r4.status = "OK" ↔ emptyFieldNames r4 = [] ∧ ner.isSome = true
    rw [hst]
    cases ner with
    | none =>
      have hb : (krok1 none ov).status = "BŁĄD" := rfl
      rw [hb]
      constructor
      · intro h
        exact absurd h (by decide)
      · rintro ⟨-, h⟩
        exact absurd h (by decide)
    | some e => simp [krok1, hc]
  · rw [if_pos hc]
    refine ⟨rfl, ?_, fun _ => rfl⟩
    show ("DO UZUPEŁNIENIA" : String) = "OK" ↔ emptyFieldNames r4 = [] ∧ ner.isSome = true
    constructor
    · intro h
      exact absurd h (by decide)
    · rintro ⟨h, -⟩
      exact absurd h hc

/-- Concrete instantiation of `extract_info_status_colors`: with the NER
model present and every field filled, status is `"OK"` and `colors` is
empty; leaving a field empty flips it to `"DO UZUPEŁNIENIA"`. -/
theorem extract_info_status_colors_witness :
    (extract_info_from_text "" (some ⟨["2024-01-02"], ["Firma"], ["temat"],
        ["7"], ["UMOWA"], ["X/1"]⟩) dummySmartResults none "").1.status = "OK"
    ∧ (extract_info_from_text "" none dummySmartResults none "").1.status
        = "DO UZUPEŁNIENIA" := by
  constructor
  · exact ((extract_info_status_colors "" (some ⟨["2024-01-02"], ["Firma"], ["temat"],
      ["7"], ["UMOWA"], ["X/1"]⟩) dummySmartResults none "").2.1).mpr ⟨by decide, rfl⟩
  · exact (extract_info_status_colors "" none dummySmartResults none "").2.2 (by decide)

/-! ### C6 — generative-stage validation, merge and failure handling -/

/-- C6 counterexample: the validation accepts the date `"2024-01-02\x5Cn"`
(with a trailing newline), because Python's `$` matches before a final
newline — so an accepted response's non-empty date need not be an exact
`YYYY-MM-DD` string. -/
theorem extract_smart_metadata_date_counterexample :
    extract_smart_metadata true (.parsedDict [("data", PyVal.str "2024-01-02\n")])
        (fun _ => none)
      = some [("data", PyVal.str "2024-01-02\n")]
    ∧ isExactDateFormat "2024-01-02\n" = false := by
  constructor
  · rfl
  · decide

/-- C6 (amended): the generative result is accepted only when the model was
loaded, the response parsed as a JSON dict and (after the `temat` rename)
validated — in particular any present non-empty `data` matches
`YYYY-MM-DD` up to one optional trailing newline; a disabled assistant, a
raised exception or a falsy/invalid result leaves the record exactly as the
earlier stages left it; and an accepted dict fills only currently-empty
fields. -/
theorem extract_smart_metadata_accept_and_merge :
    (∀ (loaded : Bool) (resp : LlmResponse) (corr : String → Option String) (d : PyDict),
      extract_smart_metadata loaded resp corr = some d →
        loaded = true
        ∧ ∃ d0, resp = LlmResponse.parsedDict d0
            ∧ validate_metadata (renameTemat d0) = true
            ∧ ∀ v, dictGet (renameTemat d0) "data" = some (PyVal.str v) →
                v = "" ∨ matchDateRegex v = true)
    ∧ (∀ r : InfoRec, krok4 none r = r ∧ krok4 (some (Except.error ())) r = r
        ∧ krok4 (some (Except.ok none)) r = r)
    ∧ ∀ d : PyDict, preservesNonempty (krok4 (some (Except.ok (some d)))) := by
  refine ⟨?_, fun r => ⟨rfl, rfl, rfl⟩, fun d => krok4_preserves _⟩
  intro loaded resp corr d h
  cases loaded with
  | false => exact absurd h (by simp [extract_smart_metadata])
  | true =>
    cases resp with
    | parseFailure => exact absurd h (by simp [extract_smart_metadata])
    | parsedNonDict => exact absurd h (by simp [extract_smart_metadata])
    | parsedDict d0 =>
      refine ⟨rfl, d0, rfl, ?_, ?_⟩
      · by_contra hval
        simp only [extract_smart_metadata, Bool.not_eq_true', Bool.not_true,
          if_false] at h
        rw [Bool.not_eq_true] at hval
        rw [hval] at h
        simp at h
      · intro v hv
        have hval : validate_metadata (renameTemat d0) = true := by
          by_contra hval
          simp only [extract_smart_metadata, Bool.not_true, if_false] at h
          rw [Bool.not_eq_true] at hval
          rw [hval] at h
          simp at h
        have hall := hval
        unfold validate_metadata validatedKeys at hall
        simp only [List.all_cons, List.all_nil, Bool.and_eq_true, Bool.and_true] at hall
        rcases hall with ⟨-, hdata, -, -, -⟩
        rw [hv] at hdata
        by_cases hve : v = ""
        · exact Or.inl hve
        · refine Or.inr ?_
          simpa [hve] using hdata

/-- Concrete instantiation of `extract_smart_metadata_accept_and_merge`: an
accepted dict is only merged into empty fields — a record whose `data` is
already set keeps it. -/
theorem extract_smart_metadata_accept_and_merge_witness :
    (krok4 (some (Except.ok (some [("data", PyVal.str "1999-09-09")])))
        ⟨"2024-01-02", "", "", "", "", "", "OK"⟩).data = "2024-01-02"
    ∧ krok4 (some (Except.error ())) ⟨"", "", "", "", "", "", "OK"⟩
        = ⟨"", "", "", "", "", "", "OK"⟩
    ∧ extract_smart_metadata false .parseFailure (fun _ => none) = none := by
  refine ⟨?_, ?_, rfl⟩
  · exact ((extract_smart_metadata_accept_and_merge.2.2
      [("data", PyVal.str "1999-09-09")]) ⟨"2024-01-02", "", "", "", "", "", "OK"⟩).1
      (by decide)
  · exact (extract_smart_metadata_accept_and_merge.2.1
      ⟨"", "", "", "", "", "", "OK"⟩).2.1

/-! ### C8 — `find_relevant_corrections` threshold and first-max selection -/

/-- The best-so-far score of the loop stays below any bound that dominates
the start and every scanned score. -/
theorem bestStep_foldl_lt (sim : String → String → ℚ) (text : String) (t : ℚ) :
    ∀ (l : List Correction) (b : ℚ) (ob : Option Correction), b < t →
      (∀ c ∈ l, sim c.text_fragment text < t) →
      (l.foldl (bestStep sim text) (b, ob)).1 < t := by
  intro l
  induction l with
  | nil => intro b ob hb _; exact hb
  | cons c l ih =>
    intro b ob hb hl
    simp only [List.foldl_cons, bestStep]
    split
    · exact ih _ _ (hl c (.head l)) (fun a ha => hl a (.tail c ha))
    · exact ih _ _ hb (fun a ha => hl a (.tail c ha))

/-- `firstMax1` returns an element of the candidate list. -/
theorem firstMax1_mem {γ : Type} (score : γ → ℚ) :
    ∀ (l : List γ) (c : γ), firstMax1 score c l ∈ c :: l := by
  intro l
  induction l with
  | nil => intro c; exact .head []
  | cons d l ih =>
    intro c
    simp only [firstMax1]
    split
    · exact List.mem_cons_of_mem c (ih d)
    · exact .head _

/-- The held element scores at least the start element. -/
theorem firstMax1_score_ge {γ : Type} (score : γ → ℚ) (l : List γ) (c : γ) :
    score c ≤ score (firstMax1 score c l) := by
  cases l with
  | nil => exact le_refl _
  | cons d l =>
    simp only [firstMax1]
    split
    · next h => exact le_of_lt h
    · exact le_refl _

/-- An element scoring no more than the current holder can be skipped. -/
theorem firstMax1_skip {γ : Type} (score : γ → ℚ) (l : List γ) (c d : γ)
    (h : score c ≤ score d) : firstMax1 score d (c :: l) = firstMax1 score d l := by
  cases l with
  | nil =>
    simp only [firstMax1]
    rw [if_neg (not_lt.2 h)]
  | cons e l =>
    simp only [firstMax1]
    by_cases h2 : score (firstMax1 score e l) > score c
    · rw [if_pos h2]
    · rw [if_neg h2]
      rw [if_neg (not_lt.2 h), if_neg (not_lt.2 (le_trans (not_lt.1 h2) h))]

/-- If nothing after the holder scores strictly more, the holder stays. -/
theorem firstMax1_const {γ : Type} (score : γ → ℚ) (l : List γ) (c : γ)
    (h : ∀ a ∈ l, score a ≤ score c) : firstMax1 score c l = c := by
  cases l with
  | nil => rfl
  | cons e l =>
    simp only [firstMax1]
    rw [if_neg (not_lt.2 ?_)]
    have hm := firstMax1_mem score l e
    exact h _ hm

/-- Once the loop holds some element (with its score as the bound), scanning
`l` leaves it holding the first maximum of holder-then-`l`. -/
theorem bestStep_foldl_bridge (sim : String → String → ℚ) (text : String) :
    ∀ (l : List Correction) (d : Correction),
      l.foldl (bestStep sim text) (sim d.text_fragment text, some d)
        = (sim (firstMax1 (fun c => sim c.text_fragment text) d l).text_fragment text,
           some (firstMax1 (fun c => sim c.text_fragment text) d l)) := by
  intro l
  induction l with
  | nil => intro d; rfl
  | cons c l ih =>
    intro d
    simp only [List.foldl_cons, bestStep]
    split
    · next h =>
      rw [ih c]
      simp only [firstMax1]
      rw [if_pos (lt_of_lt_of_le h
        (firstMax1_score_ge (fun c => sim c.text_fragment text) l c))]
    · next h =>
      rw [ih d, firstMax1_skip _ _ _ _ (not_lt.1 h)]

/-- Scanning `l₁ ++ c :: l₂` from the initial `(-1, None)` state ends holding
exactly `c` whenever `c` is the first maximum and scores above `-1`. -/
theorem bestStep_foldl_first_max (sim : String → String → ℚ) (text : String)
    (l₁ l₂ : List Correction) (c : Correction)
    (hl1 : ∀ a ∈ l₁, sim a.text_fragment text < sim c.text_fragment text)
    (hl2 : ∀ a ∈ l₂, sim a.text_fragment text ≤ sim c.text_fragment text)
    (hc : (-1 : ℚ) < sim c.text_fragment text) :
    (l₁ ++ c :: l₂).foldl (bestStep sim text) ((-1 : ℚ), none)
      = (sim c.text_fragment text, some c) := by
  rw [List.foldl_append]
  have hp := bestStep_foldl_lt sim text (sim c.text_fragment text) l₁ (-1) none hc hl1
  rcases hpair : (l₁.foldl (bestStep sim text) ((-1 : ℚ), none)) with ⟨b, ob⟩
  rw [hpair] at hp
  simp only [List.foldl_cons, bestStep]
  rw [if_pos hp]
  rw [bestStep_foldl_bridge sim text l₂ c,
    firstMax1_const (fun c => sim c.text_fragment text) l₂ c hl2]

/-- C8: `find_relevant_corrections` returns nothing when every stored
correction touching the field scores below 0.7, and when the field's
corrections contain a score ≥ 0.7 it returns the corrected value of the
first highest-scoring entry (ties resolved to the earlier entry in
iteration order). -/
theorem find_relevant_corrections_best (sim : String → String → ℚ)
    (corrections : List Correction) (text metadata_key : String) :
    ((∀ c ∈ corrections.filter (fun c => (changedLookup c metadata_key).isSome),
        sim c.text_fragment text < 7/10) →
      find_relevant_corrections sim corrections text metadata_key = none)
    ∧ ∀ c, isFirstMaxBy (fun c => sim c.text_fragment text)
          (corrections.filter (fun c => (changedLookup c metadata_key).isSome)) c →
        7/10 ≤ sim c.text_fragment text →
        find_relevant_corrections sim corrections text metadata_key
          = (changedLookup c metadata_key).map (fun p => p.2) := by
  constructor
  · intro hlt
    unfold find_relevant_corrections
    by_cases h0 : corrections = []
    · rw [if_pos h0]
    · rw [if_neg h0]
      by_cases h1 : corrections.filter (fun c => (changedLookup c metadata_key).isSome) = []
      · rw [if_pos h1]
      · rw [if_neg h1]
        have hb := bestStep_foldl_lt sim text (7/10)
          (corrections.filter (fun c => (changedLookup c metadata_key).isSome))
          (-1) none (by norm_num) hlt
        rw [if_neg (not_le.2 hb)]
  · rintro c ⟨l₁, l₂, hsplit, hl1, hl2⟩ hge
    have hc : (-1 : ℚ) < sim c.text_fragment text :=
      lt_of_lt_of_le (by norm_num) hge
    have heq := bestStep_foldl_first_max sim text l₁ l₂ c hl1 hl2 hc
    unfold find_relevant_corrections
    have hrel : corrections.filter (fun c => (changedLookup c metadata_key).isSome)
        = l₁ ++ c :: l₂ := hsplit
    have h1 : corrections.filter (fun c => (changedLookup c metadata_key).isSome) ≠ [] := by
      rw [hrel]; simp
    have h0 : corrections ≠ [] := by
      intro h
      apply h1
      rw [h]
      rfl
    rw [if_neg h0, if_neg h1, hrel, heq, if_pos hge]

/-- Concrete instantiation of `find_relevant_corrections_best`: with two
stored corrections for `"pole"` scoring 0.8 and 0.9, the 0.9 entry's
corrected value is returned; with scores all 0.5, nothing is. -/
theorem find_relevant_corrections_best_witness :
    find_relevant_corrections (fun a _ => if a = "f1" then 8/10 else 9/10)
        [⟨"f1", [("pole", "o", "Corr1")]⟩, ⟨"f2", [("pole", "o", "Corr2")]⟩]
        "q" "pole" = some "Corr2"
    ∧ find_relevant_corrections (fun _ _ => 1/2)
        [⟨"f1", [("pole", "o", "Corr1")]⟩] "q" "pole" = none := by
  constructor
  · have h := (find_relevant_corrections_best (fun a _ => if a = "f1" then 8/10 else 9/10)
      [⟨"f1", [("pole", "o", "Corr1")]⟩, ⟨"f2", [("pole", "o", "Corr2")]⟩] "q" "pole").2
      ⟨"f2", [("pole", "o", "Corr2")]⟩
      ⟨[⟨"f1", [("pole", "o", "Corr1")]⟩], [], by decide, ?_, by simp⟩ ?_
    · rw [h]
      rfl
    · intro a ha
      rw [List.mem_singleton] at ha
      subst ha
      show (if ("f1" : String) = "f1" then (8 : ℚ)/10 else 9/10)
        < (if ("f2" : String) = "f1" then (8 : ℚ)/10 else 9/10)
      rw [if_pos rfl, if_neg (by decide)]
      norm_num
    · show (7 : ℚ)/10 ≤ if ("f2" : String) = "f1" then (8 : ℚ)/10 else 9/10
      rw [if_neg (by decide)]
      norm_num
  · exact (find_relevant_corrections_best (fun _ _ => 1/2)
      [⟨"f1", [("pole", "o", "Corr1")]⟩] "q" "pole").1 (fun c _ => by norm_num)

/-! ### C9 — `find_similar_documents` ranking -/

/-- C9 counterexample: two stored documents with the same fragment get the
same similarity, so the returned ranking is NOT strictly descending — the
two entries tie. -/
theorem find_similar_documents_strict_counterexample :
    ¬ List.Chain' (fun p q : DocMemEntry × ℚ => q.2 < p.2)
        (find_similar_documents (fun _ => ()) (fun _ _ => 1)
          [⟨"frag", []⟩, ⟨"frag", []⟩] "q" 3) := by
  have hres : find_similar_documents (fun _ => ()) (fun _ _ => 1)
      [⟨"frag", []⟩, ⟨"frag", []⟩] "q" 3
      = [(⟨"frag", []⟩, 1), (⟨"frag", []⟩, 1)] := by
    unfold find_similar_documents
    norm_num [List.insertionSort, List.orderedInsert, List.range_succ,
      List.filterMap_cons]
  rw [hres]
  simp only [List.chain'_cons, List.chain'_singleton, and_true]
  exact lt_irrefl 1

/-- C9 (amended): `find_similar_documents` returns at most `top_n` entries,
in non-increasing (descending, ties allowed, earlier stored entry first —
Python's stable sort) similarity order, keeping only entries with similarity
strictly above 0.2, each tagged with its own cosine similarity to the
query. -/
theorem find_similar_documents_ranked {α : Type} (embed : String → α)
    (cos : α → α → ℚ) (memory : List DocMemEntry) (text : String) (top_n : Nat) :
    List.Sorted (fun p q : DocMemEntry × ℚ => q.2 ≤ p.2)
        (find_similar_documents embed cos memory text top_n)
    ∧ (find_similar_documents embed cos memory text top_n).length ≤ top_n
    ∧ ∀ p ∈ find_similar_documents embed cos memory text top_n,
        (1 : ℚ)/5 < p.2
        ∧ p.2 = cos (embed (pyTakeStr 2000 text)) (embed p.1.text_fragment) := by
  unfold find_similar_documents
  by_cases hlen : memory.length < 2
  · rw [if_pos hlen]
    exact ⟨List.sorted_nil, Nat.zero_le _, fun p hp => absurd hp (List.not_mem_nil p)⟩
  · rw [if_neg hlen]
    set sims := memory.map
      (fun d => cos (embed (pyTakeStr 2000 text)) (embed d.text_fragment)) with hsims
    set r : ℕ → ℕ → Prop := fun i j => sims.getD j 0 ≤ sims.getD i 0 with hr
    haveI : IsTotal ℕ r := ⟨fun i j => le_total (sims.getD j 0) (sims.getD i 0)⟩
    haveI : IsTrans ℕ r := ⟨fun a b c hab hbc => le_trans hbc hab⟩
    have hsorted : List.Pairwise r
        (((List.range memory.length).insertionSort r).take top_n) :=
      List.Pairwise.sublist (List.take_sublist _ _)
        (List.sorted_insertionSort r (List.range memory.length))
    have hmem : ∀ (i : ℕ) (p : DocMemEntry × ℚ),
        (if (1 : ℚ)/5 < sims.getD i 0 then
            (memory.get? i).map (fun d => (d, sims.getD i 0))
          else none) = some p →
        p.2 = sims.getD i 0 ∧ (1 : ℚ)/5 < sims.getD i 0
          ∧ p.2 = cos (embed (pyTakeStr 2000 text)) (embed p.1.text_fragment) := by
      intro i p hp
      by_cases hth : (1 : ℚ)/5 < sims.getD i 0
      · rw [if_pos hth] at hp
        rcases Option.map_eq_some'.1 hp with ⟨d, hd, rfl⟩
        have hv : sims.getD i 0 = cos (embed (pyTakeStr 2000 text)) (embed d.text_fragment) := by
          have : sims.get? i = some (cos (embed (pyTakeStr 2000 text)) (embed d.text_fragment)) := by
            rw [hsims, List.get?_map, hd]
            rfl
          rw [List.getD_eq_get?, this]
          rfl
        exact ⟨rfl, hth, hv⟩
      · rw [if_neg hth] at hp
        exact absurd hp (by simp)
    refine ⟨?_, ?_, ?_⟩
    · refine List.Pairwise.filterMap _ ?_ hsorted
      intro i j hij p hp q hq
      have hpi := (hmem i p (by simpa using hp)).1
      have hqj := (hmem j q (by simpa using hq)).1
      rw [hpi, hqj]
      exact hij
    · exact le_trans (List.length_filterMap_le _ _) (by simpa using List.length_take_le _ _)
    · intro p hp
      rcases List.mem_filterMap.1 hp with ⟨i, _, hi⟩
      exact ⟨lt_of_lt_of_eq (hmem i p hi).2.1 (hmem i p hi).1.symm, (hmem i p hi).2.2⟩

/-- Concrete instantiation of `find_similar_documents_ranked`: three stored
documents with similarities 0.3, 0.1 and 1 produce the two entries above
the 0.2 threshold, ranked 1 then 0.3. -/
theorem find_similar_documents_ranked_witness :
    find_similar_documents (fun s => s)
        (fun a b => if a = b then 1 else if b = "x" then 3/10 else 1/10)
        [⟨"x", []⟩, ⟨"y", []⟩, ⟨"q", []⟩] "q" 2
      = [(⟨"q", []⟩, 1), (⟨"x", []⟩, 3/10)]
    ∧ List.Sorted (fun p q : DocMemEntry × ℚ => q.2 ≤ p.2)
        (find_similar_documents (fun s => s)
          (fun a b => if a = b then 1 else if b = "x" then 3/10 else 1/10)
          [⟨"x", []⟩, ⟨"y", []⟩, ⟨"q", []⟩] "q" 2) := by
  constructor
  · unfold find_similar_documents
    norm_num +decide [List.insertionSort, List.orderedInsert, List.range_succ,
      List.filterMap_cons, pyTakeStr]
  · exact (find_similar_documents_ranked (fun s => s)
      (fun a b => if a = b then 1 else if b = "x" then 3/10 else 1/10)
      [⟨"x", []⟩, ⟨"y", []⟩, ⟨"q", []⟩] "q" 2).1
